import Mathlib

/-!
Verification of the openclaw-nest instance manager core:
the JSON configuration model and `deepMerge` (src/lib/configure.js),
the instance store and port allocator (src/lib/store.js),
and the two engine implementations (DockerEngine / ProcessEngine,
src/lib/engine/docker.js) behind the engine contract
(src/lib/engine/interface.js), together with the SSE deploy wrapper
(src/lib/server.js).
-/

namespace Nest

/-! ## JSON document model

JS values flowing through `deepMerge` / `generateConfig` are JSON
documents.  `vobj` carries the fields in insertion order, as a JS
object does; keys are unique in any document produced by `JSON.parse`
or by object literals. -/

inductive Doc where
  | vnull
  | vbool (b : Bool)
  | vnum (n : Int)
  | vstr (s : String)
  | varr (elems : List Doc)
  | vobj (fields : List (String × Doc))

abbrev Fields := List (String × Doc)

/-- First-match lookup on a string-keyed association list: `obj[key]`. -/
def lookupKV {α : Type} : List (String × α) → String → Option α
  | [], _ => none
  | (k, v) :: rest, key => if k = key then some v else lookupKV rest key

/-- JS object assignment `obj[key] = v`: replace in place if the key is
present, else append at the end (JS insertion-order semantics). -/
def setKV {α : Type} : List (String × α) → String → α → List (String × α)
  | [], key, v => [(key, v)]
  | (k, w) :: rest, key, v =>
      if k = key then (key, v) :: rest else (k, w) :: setKV rest key v

/-- JS `delete obj[key]` (object keys are unique, so removing every
occurrence models it). -/
def removeKV {α : Type} (l : List (String × α)) (key : String) :
    List (String × α) :=
  l.filter (fun p => p.1 ≠ key)

def keysKV {α : Type} (l : List (String × α)) : List String :=
  l.map Prod.fst

/-! ## deepMerge (src/lib/configure.js lines 96-113)

```js
export function deepMerge(target, source) {
  var result = Object.assign({}, target);
  for (var key of Object.keys(source)) {
    if (source[key] && typeof source[key] === "object" && !Array.isArray(source[key]) &&
        target[key] && typeof target[key] === "object" && !Array.isArray(target[key])) {
      result[key] = deepMerge(target[key], source[key]);
    } else {
      result[key] = source[key];
    }
  }
  return result;
}
```
The test `v && typeof v === "object" && !Array.isArray(v)` holds exactly
for object values (`null` is falsy, arrays are excluded), i.e. for
`Doc.vobj`.  `mergeVal tv sv` is the per-key branch where `tv` is
`target[key]` (`none` when absent) and `sv` is `source[key]`;
`mergeGo` is the `for` loop with `acc` the `result` object being built;
`mergeFields` is `deepMerge` on the field lists of two objects. -/

mutual

def mergeVal : Option Doc → Doc → Doc
  | some (Doc.vobj tf), Doc.vobj sf => Doc.vobj (mergeFields tf sf)
  | _, sv => sv
termination_by _ sv => 2 * sizeOf sv

def mergeFields (tf sf : Fields) : Fields :=
  mergeGo tf tf sf
termination_by 2 * sizeOf sf + 1

def mergeGo (tf acc : Fields) : Fields → Fields
  | [] => acc
  | (k, v) :: rest => mergeGo tf (setKV acc k (mergeVal (lookupKV tf k) v)) rest
termination_by l => 2 * sizeOf l

end

/-- `deepMerge` on two object documents, as every call site in the
repository uses it (both arguments are parsed JSON objects). -/
def deepMerge (tf sf : Fields) : Fields := mergeFields tf sf

/-- Whether an object has a field named `k`. -/
def hasKey : Fields → String → Bool
  | [], _ => false
  | (k2, _) :: rest, k => k2 = k || hasKey rest k

/-- No two fields share a key (JS objects cannot have duplicate keys). -/
def nodupKeys : Fields → Bool
  | [] => true
  | (k, _) :: rest => !hasKey rest k && nodupKeys rest

/-! Well-formed documents: every object, at every depth, has unique
keys.  Every value produced by `JSON.parse` or a JS object literal
satisfies this. -/

mutual

def wfDoc : Doc → Bool
  | Doc.vnull => true
  | Doc.vbool _ => true
  | Doc.vnum _ => true
  | Doc.vstr _ => true
  | Doc.varr xs => wfArr xs
  | Doc.vobj fs => nodupKeys fs && wfFields fs

def wfArr : List Doc → Bool
  | [] => true
  | x :: xs => wfDoc x && wfArr xs

def wfFields : Fields → Bool
  | [] => true
  | (_, v) :: rest => wfDoc v && wfFields rest

end

/-! ## Instance store (src/lib/store.js)

`instances.json` is a flat id -> metadata object read and rewritten
whole.  One record (lines 81-93 and 553-565 of the two engines):
`{id, engine, port, containerId, pid, config:{modelId, channel},
createdAt, status}`. -/

structure Meta where
  id : String
  engine : String
  port : Nat
  containerId : Option String
  pid : Option Nat
  modelId : String
  channel : String
  createdAt : String
  status : String
deriving Repr, DecidableEq

abbrev Store := List (String × Meta)

/-- `getInstance(id)`: `all[id] || null`. -/
def getInstance (store : Store) (id : String) : Option Meta :=
  lookupKV store id

/-- `saveInstance(id, meta)`: `all[id] = meta` then rewrite. -/
def saveInstance (store : Store) (id : String) (meta : Meta) : Store :=
  setKV store id meta

/-- `removeInstance(id)`: `delete all[id]` then rewrite. -/
def removeInstance (store : Store) (id : String) : Store :=
  removeKV store id

/-- The set of ports collected by `nextAvailablePort`:
`if (all[key].port) usedPorts.add(all[key].port)` — truthy ports only. -/
def usedPorts (store : Store) : List Nat :=
  (store.filter (fun p => p.2.port ≠ 0)).map (fun p => p.2.port)

/-- The `while (usedPorts.has(port)) port++` loop, with enough fuel to
run it to completion (each iteration consumes a distinct member of
`used`, so `used.length` iterations suffice). -/
def scanPort (used : List Nat) : Nat → Nat → Nat
  | 0, p => p
  | fuel + 1, p => if p ∈ used then scanPort used fuel (p + 1) else p

/-- `nextAvailablePort(basePort)`: `basePort = basePort || 18790`, then
scan upward from it.  A `basePort` of `0` models the JS falsy values
(`undefined` at the only call sites, or `0`). -/
def nextAvailablePortFrom (store : Store) (basePort : Nat) : Nat :=
  let base := if basePort = 0 then 18790 else basePort
  scanPort (usedPorts store) ((usedPorts store).length + 1) base

/-- `nextAvailablePort()` as called by both engines (no argument). -/
def nextAvailablePort (store : Store) : Nat :=
  nextAvailablePortFrom store 0

/-! ## Configuration (src/lib/configure.js) -/

/-- A character of the class `[a-zA-Z0-9_-]`. -/
def isNameChar (c : Char) : Bool :=
  (c ≥ 'a' && c ≤ 'z') || (c ≥ 'A' && c ≤ 'Z') || (c ≥ '0' && c ≤ '9') ||
  c = '_' || c = '-'

/-- `/^[a-zA-Z0-9_-]+$/.test(name)`: at least one character, all from
the class.  All class members are ASCII, so code-point length agrees
with the JS UTF-16 length on every string that can pass. -/
def nameMatches (name : String) : Bool :=
  name ≠ "" && name.data.all isNameChar

/-- `validateInstanceName` (configure.js lines 5-9).  Returns the thrown
message, or `none` when validation passes.  `!name` is true for the
empty string (JS falsiness), so `""` passes the first guard. -/
def validateInstanceName (name : String) : Option String :=
  if name = "" || name = "default" then none
  else if name.length > 32 then
    some "Instance name too long (max 32 characters)"
  else if !nameMatches name then
    some "Instance name can only contain letters, numbers, hyphens and underscores"
  else none

structure ModelEntry where
  id : String
  name : String
  api : String
deriving Repr, DecidableEq

def MODEL_CATALOG : List ModelEntry :=
  [⟨"claude-opus-4-6", "Claude Opus 4.6", "anthropic-messages"⟩,
   ⟨"claude-opus-4-5-20251101", "Claude Opus 4.5", "anthropic-messages"⟩,
   ⟨"claude-sonnet-4-5-20250929", "Claude Sonnet 4.5", "anthropic-messages"⟩,
   ⟨"claude-haiku-4-5-20251001", "Claude Haiku 4.5", "anthropic-messages"⟩,
   ⟨"claude-opus-4-1-20250805", "Claude Opus 4.1", "anthropic-messages"⟩,
   ⟨"claude-sonnet-4-20250514", "Claude Sonnet 4", "anthropic-messages"⟩]

structure ChannelCreds where
  botToken : String
  appId : String
  appSecret : String
deriving Repr, DecidableEq

/-- `generateConfig(apiKey, modelId, channel, channelCreds, port)`
(configure.js lines 31-94).  Unknown `modelId` falls back to
`MODEL_CATALOG[0]`; `telegram` and `feishu` each append their channel
sub-document, any other channel appends nothing. -/
def generateConfig (apiKey modelId channel : String) (creds : ChannelCreds)
    (port : Int) : Doc :=
  let model := (MODEL_CATALOG.find? (fun m => m.id = modelId)).getD
    (MODEL_CATALOG.headD ⟨"", "", ""⟩)
  let base : Fields :=
    [("models", Doc.vobj
        [("providers", Doc.vobj
          [("anthropic", Doc.vobj
            [("api", Doc.vstr "anthropic-messages"),
             ("baseUrl", Doc.vstr "https://direct.evolink.ai"),
             ("apiKey", Doc.vstr apiKey),
             ("models", Doc.varr
               [Doc.vobj
                 [("id", Doc.vstr model.id),
                  ("name", Doc.vstr model.name),
                  ("reasoning", Doc.vbool false),
                  ("input", Doc.varr [Doc.vstr "text"]),
                  ("cost", Doc.vobj
                    [("input", Doc.vnum 0), ("output", Doc.vnum 0),
                     ("cacheRead", Doc.vnum 0), ("cacheWrite", Doc.vnum 0)]),
                  ("contextWindow", Doc.vnum 200000),
                  ("maxTokens", Doc.vnum 8192)]])])])]),
     ("agents", Doc.vobj
        [("defaults", Doc.vobj
          [("model", Doc.vobj
            [("primary", Doc.vstr ("anthropic/" ++ model.id))])])]),
     ("gateway", Doc.vobj [("port", Doc.vnum port)])]
  let withChannel :=
    if channel = "telegram" then
      base ++ [("channels", Doc.vobj
        [("telegram", Doc.vobj
          [("enabled", Doc.vbool true),
           ("botToken", Doc.vstr creds.botToken),
           ("dmPolicy", Doc.vstr "pairing"),
           ("groups", Doc.vobj
             [("*", Doc.vobj [("requireMention", Doc.vbool true)])])])])]
    else if channel = "feishu" then
      base ++ [("channels", Doc.vobj
        [("feishu", Doc.vobj
          [("enabled", Doc.vbool true),
           ("dmPolicy", Doc.vstr "pairing"),
           ("groupPolicy", Doc.vstr "open"),
           ("requireMention", Doc.vbool true),
           ("accounts", Doc.vobj
             [("main", Doc.vobj
               [("appId", Doc.vstr creds.appId),
                ("appSecret", Doc.vstr creds.appSecret)])])])])]
    else base
  Doc.vobj withChannel

/-- The fields of a parsed JSON value when treated as a merge target:
`Object.assign({}, v)` of a non-object yields `{}` and `v[key]` is
then `undefined` for every key, which is exactly how `deepMerge`
treats an empty object. -/
def objFields : Doc → Fields
  | Doc.vobj fs => fs
  | _ => []

/-- Per-instance file system: instance id -> parsed content of its
`openclaw.json`, plus which instance data directories exist. -/
structure SysState where
  store : Store
  files : List (String × Doc)
  dirs : List String

/-- `writeInstanceConfig(dir, configData)` (configure.js lines 120-132):
read the existing document (missing or unparsable -> `{}`), deep-merge
the new data onto it, write the result. -/
def writeInstanceConfigF (files : List (String × Doc)) (id : String)
    (configData : Doc) : List (String × Doc) :=
  let existing := match lookupKV files id with
    | some d => objFields d
    | none => []
  setKV files id (Doc.vobj (mergeFields existing (objFields configData)))

/-- `readInstanceConfig(dir)`: the parsed document or `null`. -/
def readInstanceConfigF (files : List (String × Doc)) (id : String) :
    Option Doc :=
  lookupKV files id

/-! ## Engines (src/lib/engine/docker.js: DockerEngine and ProcessEngine)

Operations are pure functions of the persisted state plus an explicit
world value describing what the external backend (Docker daemon or
`openclaw` binary) answers at each call the operation makes.  Each
operation returns the settled promise value (`Except`: `error` is a
rejected promise / thrown error) together with the resulting state;
an error leaves the state exactly as the code left it at the throw. -/

/-- The `create` argument object as both engines consume it.  A `port`
of `0` models the JS falsy `config.port` (absent or `0`), which makes
`config.port || nextAvailablePort()` fall through to the allocator. -/
structure CreateConfig where
  apiKey : String
  modelId : String
  channel : String
  botToken : String
  appId : String
  appSecret : String
  port : Nat
deriving Repr, DecidableEq

/-- The `channelCreds` object built inside `create` and both deploy
streams: `botToken` for telegram, `appId`/`appSecret` for feishu. -/
def buildChannelCreds (cfg : CreateConfig) : ChannelCreds :=
  if cfg.channel = "telegram" then ⟨cfg.botToken, "", ""⟩
  else if cfg.channel = "feishu" then ⟨"", cfg.appId, cfg.appSecret⟩
  else ⟨"", "", ""⟩

/-- `ocConfig.gateway.port = 28789` (docker.js line 77): overwrite the
`port` field of the existing `gateway` sub-object. -/
def setGatewayPort (d : Doc) (p : Int) : Doc :=
  match d with
  | Doc.vobj fs =>
      match lookupKV fs "gateway" with
      | some (Doc.vobj gf) =>
          Doc.vobj (setKV fs "gateway" (Doc.vobj (setKV gf "port" (Doc.vnum p))))
      | _ => Doc.vobj fs
  | _ => d

/-- Shared body of `DockerEngine.create` / `ProcessEngine.create`
(docker.js lines 56-96 and 531-568): validate, conflict-check, allocate
a port, make the data directory, write the generated config, persist
metadata with `status: "stopped"` and null backend handle.  The Docker
variant rewrites `gateway.port` to the in-container `28789` before
writing; `engineTag` records which engine persisted the record. -/
def createImpl (dockerVariant : Bool) (engineTag : String) (st : SysState)
    (id : String) (cfg : CreateConfig) (now : String) :
    Except String Nat × SysState :=
  match validateInstanceName id with
  | some err => (.error err, st)
  | none =>
    match getInstance st.store id with
    | some _ => (.error ("Instance \"" ++ id ++ "\" already exists"), st)
    | none =>
      let port := if cfg.port ≠ 0 then cfg.port else nextAvailablePort st.store
      let dirs := if id ∈ st.dirs then st.dirs else st.dirs ++ [id]
      let creds := buildChannelCreds cfg
      let gen := generateConfig cfg.apiKey cfg.modelId cfg.channel creds
        (Int.ofNat port)
      let ocConfig := if dockerVariant then setGatewayPort gen 28789 else gen
      let files := writeInstanceConfigF st.files id ocConfig
      let store := saveInstance st.store id
        ⟨id, engineTag, port, none, none, cfg.modelId, cfg.channel, now,
         "stopped"⟩
      (.ok port, ⟨store, files, dirs⟩)

def dockerCreate (st : SysState) (id : String) (cfg : CreateConfig)
    (now : String) : Except String Nat × SysState :=
  createImpl true "docker" st id cfg now

def processCreate (st : SysState) (id : String) (cfg : CreateConfig)
    (now : String) : Except String Nat × SysState :=
  createImpl false "process" st id cfg now

/-- What `container.inspect()` answers: the container is missing
(the call throws 404) or reports its `State.Running` flag. -/
inductive DockerInspect where
  | missing
  | state (running : Bool)
deriving Repr, DecidableEq

/-- Docker daemon responses consumed by the non-deploy lifecycle calls.
`stopCode` is the status code thrown by `container.stop` (`none` = it
succeeded); 304 means "already stopped", 404 "no such container".
`startErr`/`removeFails` describe `container.start`/`container.remove`. -/
structure DockerWorld where
  inspect : DockerInspect
  startErr : Option String
  stopCode : Option Nat
  removeFails : Bool
deriving Repr, DecidableEq

/-- `safeStop` (docker.js lines 21-28): swallow 304 and 404, rethrow
anything else. -/
def safeStop (stopCode : Option Nat) : Except Nat Unit :=
  match stopCode with
  | none => .ok ()
  | some code => if code = 304 ∨ code = 404 then .ok () else .error code

/-- `DockerEngine.start` (docker.js lines 323-342): inspect, start only
when not already running; any backend error is rethrown as
"Failed to start container: ..."; on success persist `running`. -/
def dockerStart (st : SysState) (id : String) (w : DockerWorld) :
    Except String SysState × SysState :=
  match getInstance st.store id with
  | none => (.error ("Instance \"" ++ id ++ "\" not found"), st)
  | some meta =>
    let attempt : Except String Unit :=
      match w.inspect with
      | DockerInspect.missing => .error "no such container"
      | DockerInspect.state running =>
        if running then .ok ()
        else match w.startErr with
          | some msg => .error msg
          | none => .ok ()
    match attempt with
    | .error msg => (.error ("Failed to start container: " ++ msg), st)
    | .ok _ =>
      let st1 : SysState :=
        { st with store := saveInstance st.store id { meta with status := "running" } }
      (.ok st1, st1)

/-- `DockerEngine.stop` (docker.js lines 344-361): the inspect +
`safeStop` pair sits in a catch-all `try`, so every backend error is
swallowed; `stopped` is always persisted. -/
def dockerStop (st : SysState) (id : String) (w : DockerWorld) :
    Except String SysState × SysState :=
  match getInstance st.store id with
  | none => (.error ("Instance \"" ++ id ++ "\" not found"), st)
  | some meta =>
    let _ : Except Nat Unit :=
      match w.inspect with
      | DockerInspect.missing => .ok ()
      | DockerInspect.state running =>
          if running then safeStop w.stopCode else .ok ()
    let st1 : SysState :=
      { st with store := saveInstance st.store id { meta with status := "stopped" } }
    (.ok st1, st1)

/-- `DockerEngine.remove` (docker.js lines 363-387): best-effort stop
and force-remove inside catch-alls, delete the data directory (and the
config file inside it), delete the metadata record. -/
def dockerRemove (st : SysState) (id : String) (_w : DockerWorld) :
    Except String SysState × SysState :=
  match getInstance st.store id with
  | none => (.error ("Instance \"" ++ id ++ "\" not found"), st)
  | some _ =>
    let st1 : SysState :=
      ⟨removeInstance st.store id, removeKV st.files id,
       st.dirs.filter (fun d => d ≠ id)⟩
    (.ok st1, st1)

/-- `DockerEngine.status` (docker.js lines 389-414): unknown id ->
"unknown"; otherwise the live value from `inspect`, persisted when it
differs from the stored status; a missing container reads as
"stopped". -/
def dockerStatus (st : SysState) (id : String) (w : DockerWorld) :
    String × SysState :=
  match getInstance st.store id with
  | none => ("unknown", st)
  | some meta =>
    match w.inspect with
    | DockerInspect.state running =>
      let newStatus := if running then "running" else "stopped"
      if meta.status = newStatus then (newStatus, st)
      else (newStatus,
        { st with store := saveInstance st.store id { meta with status := newStatus } })
    | DockerInspect.missing =>
      if meta.status = "stopped" then ("stopped", st)
      else ("stopped",
        { st with store := saveInstance st.store id { meta with status := "stopped" } })

/-- Responses of the `openclaw` binary to the ProcessEngine's
`execSafe` calls: `none` is a clean exit, `some msg` a thrown error. -/
structure ProcessWorld where
  gatewayStartErr : Option String
  gatewayStopErr : Option String
  uninstallErr : Option String
deriving Repr, DecidableEq

/-- `ProcessEngine.start` (docker.js lines 677-686): run
`openclaw gateway start` — an exec failure propagates — then persist
`running`. -/
def processStart (st : SysState) (id : String) (w : ProcessWorld) :
    Except String SysState × SysState :=
  match getInstance st.store id with
  | none => (.error ("Instance \"" ++ id ++ "\" not found"), st)
  | some meta =>
    match w.gatewayStartErr with
    | some msg => (.error msg, st)
    | none =>
      let st1 : SysState :=
        { st with store := saveInstance st.store id { meta with status := "running" } }
      (.ok st1, st1)

/-- `ProcessEngine.stop` (docker.js lines 688-697): `openclaw gateway
stop` in a catch-all, then persist `stopped`. -/
def processStop (st : SysState) (id : String) (_w : ProcessWorld) :
    Except String SysState × SysState :=
  match getInstance st.store id with
  | none => (.error ("Instance \"" ++ id ++ "\" not found"), st)
  | some meta =>
    let st1 : SysState :=
      { st with store := saveInstance st.store id { meta with status := "stopped" } }
    (.ok st1, st1)

/-- `ProcessEngine.remove` (docker.js lines 699-719): best-effort
`stop` (which persists `stopped`), best-effort daemon uninstall, delete
the data directory, delete the metadata record. -/
def processRemove (st : SysState) (id : String) (w : ProcessWorld) :
    Except String SysState × SysState :=
  match getInstance st.store id with
  | none => (.error ("Instance \"" ++ id ++ "\" not found"), st)
  | some _ =>
    let afterStop := (processStop st id w).2
    let st1 : SysState :=
      ⟨removeInstance afterStop.store id, removeKV afterStop.files id,
       afterStop.dirs.filter (fun d => d ≠ id)⟩
    (.ok st1, st1)

/-- `ProcessEngine.status` (docker.js lines 721-734): unknown id ->
"unknown"; otherwise "running" iff the gateway port answers, persisted
when it differs from the stored status. -/
def processStatus (st : SysState) (id : String) (portUp : Bool) :
    String × SysState :=
  match getInstance st.store id with
  | none => ("unknown", st)
  | some meta =>
    let newStatus := if portUp then "running" else "stopped"
    if meta.status = newStatus then (newStatus, st)
    else (newStatus,
      { st with store := saveInstance st.store id { meta with status := newStatus } })

/-! ## Deploy streams (docker.js lines 101-321 and 574-675)

A deploy is modelled as a pure function of the persisted state, the
caller config, and a world value listing everything the backend
answers during this run.  Its output is the settled completion promise
(`Except`), the resulting persisted state, and the ordered list of
progress events `(percent, message)` delivered to `onProgress`.
Cancellation is not exercised by any claim, so the `aborted` flag is
modelled as never set. -/

abbrev Event := Int × String

/-- `line.length > 60 ? line.slice(0, 60) + "..." : line`. -/
def truncMsg (line : String) : String :=
  if line.length > 60 then line.take 60 ++ "..." else line

/-- JS truthiness of a JSON value. -/
def jsTruthy : Doc → Bool
  | Doc.vnull => false
  | Doc.vbool b => b
  | Doc.vnum n => n ≠ 0
  | Doc.vstr s => s ≠ ""
  | Doc.varr _ => true
  | Doc.vobj _ => true

/-- The plugin-entry fix both deploy streams apply to the merged
config: `if (!f.plugins) f.plugins = {}; if (!f.plugins.entries)
f.plugins.entries = {}; f.plugins.entries.<channel> = {enabled: true}`.
Returns `none` when a truthy non-object sits at `plugins` or
`plugins.entries`, where the JS property write would throw (caught by
the surrounding `try`). -/
def fixPlugins (fs : Fields) (channel : String) : Option Fields :=
  let fs1 := if jsTruthy ((lookupKV fs "plugins").getD Doc.vnull) then fs
    else setKV fs "plugins" (Doc.vobj [])
  match lookupKV fs1 "plugins" with
  | some (Doc.vobj pf) =>
    let pf1 := if jsTruthy ((lookupKV pf "entries").getD Doc.vnull) then pf
      else setKV pf "entries" (Doc.vobj [])
    match lookupKV pf1 "entries" with
    | some (Doc.vobj ef) =>
      let ef1 :=
        if channel = "telegram" then
          setKV ef "telegram" (Doc.vobj [("enabled", Doc.vbool true)])
        else if channel = "feishu" then
          setKV ef "feishu" (Doc.vobj [("enabled", Doc.vbool true)])
        else ef
      some (setKV fs1 "plugins" (Doc.vobj (setKV pf1 "entries" (Doc.vobj ef1))))
    | _ => none
  | _ => none

/-- The P3 finalize-config step shared by both deploy streams:
regenerate the desired config, deep-merge it onto whatever onboarding
left in `openclaw.json`, fix the plugin entries, write back (the write
itself merges once more onto the file).  `none` models the caught
config exception, in which case nothing is written. -/
def applyFinalConfig (files : List (String × Doc)) (id : String)
    (cfg : CreateConfig) (port : Int) : Option (List (String × Doc)) :=
  let creds := buildChannelCreds cfg
  let generated := generateConfig cfg.apiKey cfg.modelId cfg.channel creds port
  let postOnboard := match readInstanceConfigF files id with
    | some d => objFields d
    | none => []
  let finalCfg := deepMerge postOnboard (objFields generated)
  match fixPlugins finalCfg cfg.channel with
  | none => none
  | some fixedCfg => some (writeInstanceConfigF files id (Doc.vobj fixedCfg))

/-- One `onProgress` tick of the Docker P2 log follower, from percent
`pe.1`: `if (pct < 85) { pct = min(pct + 2, 85); onProgress(pct, msg) }`. -/
def dockerTick (pe : Nat × List Event) (line : String) : Nat × List Event :=
  if pe.1 < 85 then
    let pct1 := min (pe.1 + 2) 85
    (pct1, pe.2 ++ [((pct1 : Int), truncMsg line)])
  else pe

def dockerTickFold (pct : Nat) (lines : List String) : Nat × List Event :=
  lines.foldl dockerTick (pct, [])

/-- One tick of the ProcessEngine onboarding output follower:
`if (pct < 80) { pct = min(pct + 3, 80); onProgress(pct, msg || "Onboarding...") }`. -/
def processTick (pe : Nat × List Event) (line : String) : Nat × List Event :=
  if pe.1 < 80 then
    let pct1 := min (pe.1 + 3) 80
    let m := truncMsg line
    (pct1, pe.2 ++ [((pct1 : Int), if m = "" then "Onboarding..." else m)])
  else pe

def processTickFold (pct : Nat) (lines : List String) : Nat × List Event :=
  lines.foldl processTick (pct, [])

/-- The onboarding completion marker echoed by the container entrypoint
(docker.js line 159) and watched for in the log follower (line 235). -/
def markerLine : String := "=== NEST_ONBOARD_DONE ==="

/-- How the Docker P2 log-follow promise settles: the completion marker
arrives; the log stream ends; the stream errors; or the 180000 ms
timer fires (`setTimeout(function() { done(null); }, 180000)`), which
resolves the promise and lets the deploy proceed. -/
inductive P2Outcome where
  | marker
  | streamEnd
  | streamErr (msg : String)
  | timeout
deriving Repr, DecidableEq

/-- Everything the Docker daemon and the container answer during one
run of `DockerEngine.deployStream`.  `portChecks` lists the successive
`checkPort` results of the P4 wait loop (missing entries read `false`). -/
structure DockerDeployWorld where
  pullErr : Option String
  pullStatuses : List String
  createErr : Option String
  containerId : String
  startErr : Option String
  p2lines : List String
  p2outcome : P2Outcome
  restartErr : Option String
  portChecks : List Bool
  updateErr : Bool
deriving Repr, DecidableEq

/-- Whether the P4 wait loop `while (attempts < 15) { up = await
checkPort(port); if (up) break; ... }` ever saw the gateway port
answer.  The code discards this value: nothing after the loop reads
`up`. -/
def gatewayBecameReady (checks : List Bool) : Bool :=
  (checks.take 15).any id

structure DockerDeployOut where
  result : Except String Nat
  state : SysState
  events : List Event
  policyFlipped : Bool

/-- `DockerEngine.deployStream` (docker.js lines 101-321), no
cancellation.  Note two behaviours of the source this mirrors: a P2
timeout or stream end resolves the log-follow promise and the deploy
proceeds ("proceed anyway"), and after the P4 wait loop the restart
policy update and the `status: "running"` save happen unconditionally. -/
def dockerDeployStream (st : SysState) (id : String) (cfg : CreateConfig)
    (w : DockerDeployWorld) : DockerDeployOut :=
  match getInstance st.store id with
  | none => ⟨.error ("Instance \"" ++ id ++ "\" not found"), st, [], false⟩
  | some meta =>
    let port := meta.port
    let ev1 : List Event := [((10 : Int), "Pulling image node:22-slim...")]
      ++ w.pullStatuses.map (fun s => ((12 : Int), s))
      ++ (match w.pullErr with
        | some m => [((12 : Int), "Warning: pull failed, trying local image: " ++ m)]
        | none => [])
    let ev2 := ev1 ++ [((20 : Int), "Creating container...")]
    match w.createErr with
    | some m => ⟨.error m, st, ev2, false⟩
    | none =>
      let meta1 := { meta with containerId := some w.containerId }
      let st1 : SysState := { st with store := saveInstance st.store id meta1 }
      let ev3 := ev2 ++ [((25 : Int), "Starting container...")]
      match w.startErr with
      | some m => ⟨.error m, st1, ev3, false⟩
      | none =>
        let ev4 := ev3 ++ [((30 : Int), "Installing OpenClaw in container...")]
        let seenLines := match w.p2outcome with
          | P2Outcome.marker => w.p2lines ++ [markerLine]
          | _ => w.p2lines
        let ev5 := ev4 ++ (dockerTickFold 30 seenLines).2
        match w.p2outcome with
        | P2Outcome.streamErr m => ⟨.error m, st1, ev5, false⟩
        | _ =>
          let ev6 := ev5 ++ [((88 : Int), "Applying final configuration...")]
          let filesRes := applyFinalConfig st1.files id cfg 28789
          let ev7 := ev6 ++ (match filesRes with
            | none => [((88 : Int), "Warning: config error: cannot set plugin entries")]
            | some _ => [])
          let st2 : SysState := { st1 with files := filesRes.getD st1.files }
          let ev8 := ev7 ++ [((93 : Int), "Restarting gateway...")]
            ++ (match w.restartErr with
              | some m => [((93 : Int), "Warning: gateway restart: " ++ m)]
              | none => [])
            ++ [((96 : Int), "Waiting for gateway...")]
          -- The P4 wait loop runs here; `gatewayBecameReady w.portChecks`
          -- is its outcome, which the code never reads.
          let st3 : SysState :=
            { st2 with store := saveInstance st2.store id { meta1 with status := "running" } }
          ⟨.ok port, st3, ev8 ++ [((100 : Int), "Done")], !w.updateErr⟩

/-- Everything the spawned `openclaw onboard` child and the follow-up
`gateway restart` answer during one run of
`ProcessEngine.deployStream`. -/
structure ProcessDeployWorld where
  spawnErr : Option String
  outLines : List String
  exitCode : Int
  restartErr : Option String
deriving Repr, DecidableEq

structure ProcessDeployOut where
  result : Except String Nat
  state : SysState
  events : List Event

/-- `ProcessEngine.deployStream` (docker.js lines 574-675), no
cancellation.  A non-zero onboard exit rejects; on exit 0 the final
config is applied, the gateway restarted (failure is a warning), and
`status: "running"` is persisted unconditionally — there is no
readiness re-poll in this engine. -/
def processDeployStream (st : SysState) (id : String) (cfg : CreateConfig)
    (w : ProcessDeployWorld) : ProcessDeployOut :=
  match getInstance st.store id with
  | none => ⟨.error ("Instance \"" ++ id ++ "\" not found"), st, []⟩
  | some meta =>
    let port := meta.port
    let ev1 : List Event := [((15 : Int), "Running onboarding...")]
    match w.spawnErr with
    | some m => ⟨.error ("Failed to start onboarding: " ++ m), st, ev1⟩
    | none =>
      let ticks := processTickFold 15 w.outLines
      let ev2 := ev1 ++ ticks.2
      if w.exitCode ≠ 0 then
        ⟨.error ("Onboarding failed (exit " ++ toString w.exitCode ++ ")"),
         st, ev2 ++ [((ticks.1 : Int), "Onboarding failed")]⟩
      else
        let ev3 := ev2 ++ [((85 : Int), "Applying final configuration...")]
        let filesRes := applyFinalConfig st.files id cfg (Int.ofNat port)
        let ev4 := ev3 ++ (match filesRes with
          | none =>
            [((85 : Int), "Warning: failed to apply final config: cannot set plugin entries")]
          | some _ => [])
        let st1 : SysState := { st with files := filesRes.getD st.files }
        let ev5 := ev4 ++ [((92 : Int), "Restarting gateway...")]
          ++ (match w.restartErr with
            | some m => [((92 : Int), "Warning: gateway restart failed: " ++ m)]
            | none => [])
        let st2 : SysState :=
          { st1 with store := saveInstance st1.store id { meta with status := "running" } }
        ⟨.ok port, st2, ev5 ++ [((100 : Int), "Done")]⟩

/-- The SSE wrapper around `handle.promise` (server.js lines 328-336):
a resolution appends the terminal `{percent: 100, done: true}` event,
a rejection the terminal `{percent: -1, error: true}` event carrying
the rejection message. -/
def sseDeployEvents (result : Except String Nat) (events : List Event) :
    List Event :=
  match result with
  | .ok _ => events ++ [((100 : Int), "Done")]
  | .error msg => events ++ [((-1 : Int), msg)]

/-- The status return type declared by the engine contract
(src/lib/engine/interface.js line 46):
`"running"|"stopped"|"error"|"unknown"`. -/
def statusContract : List String := ["running", "stopped", "error", "unknown"]

/-- The live status `DockerEngine.status` derives from the backend:
`info.State.Running ? "running" : "stopped"`, and "stopped" when the
container does not exist. -/
def liveDockerStatus (i : DockerInspect) : String :=
  match i with
  | DockerInspect.state true => "running"
  | DockerInspect.state false => "stopped"
  | DockerInspect.missing => "stopped"

/-- The live status `ProcessEngine.status` derives from its port probe. -/
def liveProcessStatus (portUp : Bool) : String :=
  if portUp then "running" else "stopped"

/-- The recursion guard of `deepMerge`: true exactly when the JS test
`source[key] && typeof source[key] === "object" && !Array.isArray(source[key])
&& target[key] && typeof target[key] === "object" && !Array.isArray(target[key])`
holds, i.e. both values are present and mapping-typed. -/
def bothObj (tv : Option Doc) (sv : Doc) : Bool :=
  match tv, sv with
  | some (Doc.vobj _), Doc.vobj _ => true
  | _, _ => false

/-! ## Association-list lemmas -/

theorem lookupKV_setKV_self {α : Type} :
    ∀ (l : List (String × α)) (k : String) (v : α),
    lookupKV (setKV l k v) k = some v
  | [], k, v => by simp [setKV, lookupKV]
  | (k2, w) :: rest, k, v => by
    by_cases h : k2 = k
    · simp [setKV, h, lookupKV]
    · simp [setKV, h, lookupKV, lookupKV_setKV_self rest k v]

theorem lookupKV_setKV_ne {α : Type} :
    ∀ (l : List (String × α)) (k k2 : String) (v : α), k2 ≠ k →
    lookupKV (setKV l k v) k2 = lookupKV l k2
  | [], k, k2, v, h => by simp [setKV, lookupKV, Ne.symm h]
  | (k3, w) :: rest, k, k2, v, h => by
    by_cases h3 : k3 = k
    · subst h3
      simp [setKV, lookupKV, Ne.symm h]
    · simp [setKV, h3, lookupKV, lookupKV_setKV_ne rest k k2 v h]

theorem setKV_of_lookup_eq {α : Type} :
    ∀ (l : List (String × α)) (k : String) (v : α),
    lookupKV l k = some v → setKV l k v = l
  | [], k, v, h => by simp [lookupKV] at h
  | (k2, w) :: rest, k, v, h => by
    by_cases h2 : k2 = k
    · subst h2
      simp only [lookupKV, if_true, eq_self_iff_true, Option.some.injEq] at h
      simp [setKV, h]
    · simp only [lookupKV, if_neg h2] at h
      simp [setKV, h2, setKV_of_lookup_eq rest k v h]

theorem lookupKV_removeKV_self {α : Type} (l : List (String × α)) (k : String) :
    lookupKV (removeKV l k) k = none := by
  induction l with
  | nil => simp [removeKV, lookupKV]
  | cons hd tl ih =>
    by_cases h : hd.1 = k
    · simpa [removeKV, h] using ih
    · simpa [removeKV, List.filter_cons, h, lookupKV] using ih

theorem lookupKV_eq_none_of_not_mem_keys {α : Type} :
    ∀ (l : List (String × α)) (k : String), k ∉ keysKV l →
    lookupKV l k = none
  | [], _, _ => rfl
  | (k2, w) :: rest, k, h => by
    simp only [keysKV, List.map_cons, List.mem_cons] at h
    push_neg at h
    simp [lookupKV, Ne.symm h.1,
      lookupKV_eq_none_of_not_mem_keys rest k
        (by simpa [keysKV] using h.2)]

theorem setKV_eq_append_of_not_mem_keys {α : Type} :
    ∀ (l : List (String × α)) (k : String) (v : α), k ∉ keysKV l →
    setKV l k v = l ++ [(k, v)]
  | [], k, v, _ => rfl
  | (k2, w) :: rest, k, v, h => by
    simp only [keysKV, List.map_cons, List.mem_cons] at h
    push_neg at h
    simp [setKV, Ne.symm h.1,
      setKV_eq_append_of_not_mem_keys rest k v (by simpa [keysKV] using h.2)]

/-! ## Port-scan lemmas -/

theorem scanPort_ge (used : List Nat) :
    ∀ (fuel p : Nat), p ≤ scanPort used fuel p
  | 0, p => Nat.le_refl p
  | fuel + 1, p => by
    by_cases h : p ∈ used
    · simpa [scanPort, h] using
        Nat.le_trans (Nat.le_succ p) (scanPort_ge used fuel (p + 1))
    · simp [scanPort, h]

theorem scanPort_mem_of_lt (used : List Nat) :
    ∀ (fuel p q : Nat), p ≤ q → q < scanPort used fuel p → q ∈ used
  | 0, p, q, hpq, hlt => absurd hlt (by simpa [scanPort] using Nat.not_lt.mpr hpq)
  | fuel + 1, p, q, hpq, hlt => by
    by_cases h : p ∈ used
    · rcases Nat.eq_or_lt_of_le hpq with heq | hgt
      · exact heq ▸ h
      · exact scanPort_mem_of_lt used fuel (p + 1) q hgt
          (by simpa [scanPort, h] using hlt)
    · simp only [scanPort, if_neg h] at hlt
      omega

theorem countP_ge_split (used : List Nat) (p : Nat) :
    used.countP (fun x => p ≤ x) =
      used.countP (fun x => p + 1 ≤ x) + used.count p := by
  induction used with
  | nil => simp
  | cons a tl ih =>
    simp only [List.countP_cons, List.count_cons, ih]
    by_cases h1 : p ≤ a <;> by_cases h2 : p + 1 ≤ a <;>
      by_cases h3 : a = p <;> simp [h1, h2, h3] <;> omega

theorem scanPort_not_mem (used : List Nat) :
    ∀ (fuel p : Nat), used.countP (fun x => p ≤ x) < fuel →
    scanPort used fuel p ∉ used
  | 0, p, h => absurd h (Nat.not_lt_zero _)
  | fuel + 1, p, h => by
    by_cases hm : p ∈ used
    · have hcount : 0 < used.count p := List.count_pos_iff.mpr hm
      have hsplit := countP_ge_split used p
      simp only [scanPort, if_pos hm]
      exact scanPort_not_mem used fuel (p + 1) (by omega)
    · simp [scanPort, hm]

/-! ## Port allocator -/

theorem nextAvailablePort_ge (store : Store) :
    18790 ≤ nextAvailablePort store := by
  simpa [nextAvailablePort, nextAvailablePortFrom] using
    scanPort_ge (usedPorts store) ((usedPorts store).length + 1) 18790

theorem nextAvailablePort_not_used (store : Store) :
    nextAvailablePort store ∉ usedPorts store := by
  have h := scanPort_not_mem (usedPorts store)
    ((usedPorts store).length + 1) 18790 (by
      have := List.countP_le_length
        (p := fun x => decide (18790 ≤ x)) (l := usedPorts store)
      omega)
  simpa [nextAvailablePort, nextAvailablePortFrom] using h

theorem nextAvailablePort_min (store : Store) (q : Nat) (h1 : 18790 ≤ q)
    (h2 : q < nextAvailablePort store) : q ∈ usedPorts store :=
  scanPort_mem_of_lt (usedPorts store) ((usedPorts store).length + 1)
    18790 q h1 (by simpa [nextAvailablePort, nextAvailablePortFrom] using h2)

/-- C4: `nextAvailablePort` returns the first integer at or above 18790
absent from the stored ports; it never returns a stored port; calling
it twice on the same store is idempotent (it is a pure scan); and the
concrete scenario: `create("bot1", {apiKey:"k",
modelId:"claude-haiku-4-5-20251001", channel:"telegram", botToken:"t"})`
on an empty store assigns port 18790 and a subsequent
`create("bot2", ...)` without explicit port assigns 18791. -/
theorem claim_C4 :
    (∀ store : Store, 18790 ≤ nextAvailablePort store) ∧
    (∀ (store : Store) (pr : String × Meta), pr ∈ store →
       pr.2.port ≠ nextAvailablePort store) ∧
    (∀ (store : Store) (q : Nat), 18790 ≤ q → q < nextAvailablePort store →
       q ∈ usedPorts store) ∧
    (∀ store : Store, nextAvailablePort store = nextAvailablePort store) ∧
    (processCreate ⟨[], [], []⟩ "bot1"
       ⟨"k", "claude-haiku-4-5-20251001", "telegram", "t", "", "", 0⟩ "t1").1 =
      Except.ok 18790 ∧
    (processCreate
       (processCreate ⟨[], [], []⟩ "bot1"
         ⟨"k", "claude-haiku-4-5-20251001", "telegram", "t", "", "", 0⟩ "t1").2
       "bot2"
       ⟨"k", "claude-haiku-4-5-20251001", "telegram", "t2", "", "", 0⟩ "t2").1 =
      Except.ok 18791 := by
  refine ⟨nextAvailablePort_ge, ?_, nextAvailablePort_min,
    fun _ => rfl, by rfl, by rfl⟩
  intro store pr hmem heq
  by_cases hz : pr.2.port = 0
  · have := nextAvailablePort_ge store
    omega
  · exact nextAvailablePort_not_used store (heq ▸
      List.mem_map_of_mem _ (List.mem_filter.mpr ⟨hmem, by simpa using hz⟩))

/-- Witness for C4 at a concrete store with ports 18790 and 18792:
the allocator skips the used port and the gap below the result is
used. -/
theorem claim_C4_witness :
    (18790 ≤ nextAvailablePort
       [("a", ⟨"a", "process", 18790, none, none, "m", "telegram", "t", "stopped"⟩)]) ∧
    (("a", (⟨"a", "process", 18790, none, none, "m", "telegram", "t",
        "stopped"⟩ : Meta)).2.port ≠ nextAvailablePort
       [("a", ⟨"a", "process", 18790, none, none, "m", "telegram", "t", "stopped"⟩)]) ∧
    18790 ∈ usedPorts
      [("a", ⟨"a", "process", 18790, none, none, "m", "telegram", "t", "stopped"⟩)] := by
  refine ⟨claim_C4.1 _, claim_C4.2.1 _ _ (by simp), ?_⟩
  exact claim_C4.2.2.1 _ 18790 (by omega) (by decide)

/-! ## create -/

theorem createImpl_ok (dv : Bool) (tag : String) (st : SysState)
    (id : String) (cfg : CreateConfig) (now : String) (p : Nat)
    (st1 : SysState) (h : createImpl dv tag st id cfg now = (.ok p, st1)) :
    validateInstanceName id = none ∧
    getInstance st1.store id =
      some ⟨id, tag, p, none, none, cfg.modelId, cfg.channel, now, "stopped"⟩ := by
  unfold createImpl at h
  cases hv : validateInstanceName id with
  | some err => simp [hv] at h
  | none =>
    cases hg : getInstance st.store id with
    | some m => simp [hv, hg] at h
    | none =>
      simp only [hv, hg, Prod.mk.injEq, Except.ok.injEq] at h
      obtain ⟨hp, hst⟩ := h
      subst hp
      subst hst
      exact ⟨rfl, lookupKV_setKV_self _ _ _⟩

theorem createImpl_conflict (dv : Bool) (tag : String) (st : SysState)
    (id : String) (cfg : CreateConfig) (now : String) (m : Meta)
    (hv : validateInstanceName id = none)
    (hg : getInstance st.store id = some m) :
    createImpl dv tag st id cfg now =
      (.error ("Instance \"" ++ id ++ "\" already exists"), st) := by
  unfold createImpl
  simp [hv, hg]

/-- C3: after a successful `create(id, cfg)`, a second `create` with
the same id fails with the Conflict error and performs no writes — the
state after the failing call is exactly the state the first call left,
and the metadata the first call persisted is still readable. -/
theorem claim_C3 : ∀ (st st1 : SysState) (id : String)
    (cfg cfg2 : CreateConfig) (now now2 : String) (p : Nat),
    (dockerCreate st id cfg now = (.ok p, st1) →
      dockerCreate st1 id cfg2 now2 =
        (.error ("Instance \"" ++ id ++ "\" already exists"), st1) ∧
      getInstance st1.store id =
        some ⟨id, "docker", p, none, none, cfg.modelId, cfg.channel, now,
          "stopped"⟩) ∧
    (processCreate st id cfg now = (.ok p, st1) →
      processCreate st1 id cfg2 now2 =
        (.error ("Instance \"" ++ id ++ "\" already exists"), st1) ∧
      getInstance st1.store id =
        some ⟨id, "process", p, none, none, cfg.modelId, cfg.channel, now,
          "stopped"⟩) := by
  intro st st1 id cfg cfg2 now now2 p
  constructor
  · intro h
    obtain ⟨hv, hg⟩ := createImpl_ok true "docker" st id cfg now p st1 h
    exact ⟨createImpl_conflict true "docker" st1 id cfg2 now2 _ hv hg, hg⟩
  · intro h
    obtain ⟨hv, hg⟩ := createImpl_ok false "process" st id cfg now p st1 h
    exact ⟨createImpl_conflict false "process" st1 id cfg2 now2 _ hv hg, hg⟩

/-- Witness for C3: a concrete duplicate `create("w3", ...)` on the
Docker engine fails Conflict and the first metadata is intact. -/
theorem claim_C3_witness :
    dockerCreate
      (dockerCreate ⟨[], [], []⟩ "w3"
        ⟨"k", "claude-opus-4-6", "telegram", "t", "", "", 0⟩ "t1").2
      "w3" ⟨"k2", "claude-opus-4-6", "telegram", "t9", "", "", 0⟩ "t2" =
      (.error "Instance \"w3\" already exists",
       (dockerCreate ⟨[], [], []⟩ "w3"
         ⟨"k", "claude-opus-4-6", "telegram", "t", "", "", 0⟩ "t1").2) ∧
    getInstance
      (dockerCreate ⟨[], [], []⟩ "w3"
        ⟨"k", "claude-opus-4-6", "telegram", "t", "", "", 0⟩ "t1").2.store
      "w3" =
      some ⟨"w3", "docker", 18790, none, none, "claude-opus-4-6", "telegram",
        "t1", "stopped"⟩ :=
  (claim_C3 ⟨[], [], []⟩ _ "w3"
    ⟨"k", "claude-opus-4-6", "telegram", "t", "", "", 0⟩
    ⟨"k2", "claude-opus-4-6", "telegram", "t9", "", "", 0⟩
    "t1" "t2" 18790).1 (by rfl)

/-! ## status -/

theorem Meta_set_status_eq :
    ∀ (m : Meta) (s : String), m.status = s →
    ({ m with status := s } : Meta) = m
  | ⟨_, _, _, _, _, _, _, _, _⟩, _, h => by cases h; rfl

theorem dockerStatus_none (st : SysState) (id : String) (w : DockerWorld)
    (hg : getInstance st.store id = none) :
    dockerStatus st id w = ("unknown", st) := by
  unfold dockerStatus
  rw [hg]

theorem processStatus_none (st : SysState) (id : String) (portUp : Bool)
    (hg : getInstance st.store id = none) :
    processStatus st id portUp = ("unknown", st) := by
  unfold processStatus
  rw [hg]

theorem dockerStatus_spec (st : SysState) (id : String) (meta : Meta)
    (w : DockerWorld) (hg : getInstance st.store id = some meta) :
    (dockerStatus st id w).1 = liveDockerStatus w.inspect ∧
    getInstance (dockerStatus st id w).2.store id =
      some { meta with status := liveDockerStatus w.inspect } := by
  unfold dockerStatus
  rw [hg]
  cases hi : w.inspect with
  | missing =>
    by_cases hs : meta.status = "stopped"
    · simp [liveDockerStatus, hs, Meta_set_status_eq meta _ hs, hg]
    · simp [liveDockerStatus, hs, getInstance, saveInstance,
        lookupKV_setKV_self]
  | state running =>
    cases running with
    | false =>
      by_cases hs : meta.status = "stopped"
      · simp [liveDockerStatus, hs, Meta_set_status_eq meta _ hs, hg]
      · simp [liveDockerStatus, hs, getInstance, saveInstance,
          lookupKV_setKV_self]
    | true =>
      by_cases hs : meta.status = "running"
      · simp [liveDockerStatus, hs, Meta_set_status_eq meta _ hs, hg]
      · simp [liveDockerStatus, hs, getInstance, saveInstance,
          lookupKV_setKV_self]

theorem processStatus_spec (st : SysState) (id : String) (meta : Meta)
    (portUp : Bool) (hg : getInstance st.store id = some meta) :
    (processStatus st id portUp).1 = liveProcessStatus portUp ∧
    getInstance (processStatus st id portUp).2.store id =
      some { meta with status := liveProcessStatus portUp } := by
  unfold processStatus
  rw [hg]
  cases portUp with
  | false =>
    by_cases hs : meta.status = "stopped"
    · simp [liveProcessStatus, hs, Meta_set_status_eq meta _ hs, hg]
    · simp [liveProcessStatus, hs, getInstance, saveInstance,
        lookupKV_setKV_self]
  | true =>
    by_cases hs : meta.status = "running"
    · simp [liveProcessStatus, hs, Meta_set_status_eq meta _ hs, hg]
    · simp [liveProcessStatus, hs, getInstance, saveInstance,
        lookupKV_setKV_self]

/-- C5: `status(id)` returns the live backend value (for the Docker
engine the container's `State.Running`, a missing container reading as
"stopped"; for the process engine the port probe), persists any drift
so the record reads the live value on the very next read, and returns
"unknown" without error for an id absent from the store. -/
theorem claim_C5 : ∀ (st : SysState) (id : String) (meta : Meta)
    (w : DockerWorld) (portUp : Bool),
    (getInstance st.store id = none →
       dockerStatus st id w = ("unknown", st) ∧
       processStatus st id portUp = ("unknown", st)) ∧
    (getInstance st.store id = some meta →
       (dockerStatus st id w).1 = liveDockerStatus w.inspect ∧
       getInstance (dockerStatus st id w).2.store id =
         some { meta with status := liveDockerStatus w.inspect } ∧
       (processStatus st id portUp).1 = liveProcessStatus portUp ∧
       getInstance (processStatus st id portUp).2.store id =
         some { meta with status := liveProcessStatus portUp }) := by
  intro st id meta w portUp
  constructor
  · intro hg
    exact ⟨dockerStatus_none st id w hg, processStatus_none st id portUp hg⟩
  · intro hg
    obtain ⟨h1, h2⟩ := dockerStatus_spec st id meta w hg
    obtain ⟨h3, h4⟩ := processStatus_spec st id meta portUp hg
    exact ⟨h1, h2, h3, h4⟩

/-- Witness for C5: an instance recorded "running" whose container was
deleted out-of-band reads "stopped", and the record is persisted as
"stopped". -/
theorem claim_C5_witness :
    (dockerStatus
      ⟨[("b5", ⟨"b5", "docker", 18790, some "c5", none, "m", "telegram",
        "t", "running"⟩)], [], []⟩
      "b5" ⟨DockerInspect.missing, none, none, false⟩).1 = "stopped" ∧
    getInstance
      (dockerStatus
        ⟨[("b5", ⟨"b5", "docker", 18790, some "c5", none, "m", "telegram",
          "t", "running"⟩)], [], []⟩
        "b5" ⟨DockerInspect.missing, none, none, false⟩).2.store "b5" =
      some ⟨"b5", "docker", 18790, some "c5", none, "m", "telegram", "t",
        "stopped"⟩ := by
  have h := (claim_C5
    ⟨[("b5", ⟨"b5", "docker", 18790, some "c5", none, "m", "telegram",
      "t", "running"⟩)], [], []⟩
    "b5"
    ⟨"b5", "docker", 18790, some "c5", none, "m", "telegram", "t", "running"⟩
    ⟨DockerInspect.missing, none, none, false⟩ false).2 (by rfl)
  exact ⟨h.1, h.2.1⟩

/-- C10: both engines' `status` only ever produce "running", "stopped"
or "unknown"; the "error" member of the contract's declared return type
(interface.js line 46) is never produced. -/
theorem claim_C10 : ∀ (st : SysState) (id : String) (w : DockerWorld)
    (portUp : Bool),
    (dockerStatus st id w).1 ∈ statusContract ∧
    (dockerStatus st id w).1 ≠ "error" ∧
    (processStatus st id portUp).1 ∈ statusContract ∧
    (processStatus st id portUp).1 ≠ "error" := by
  intro st id w portUp
  cases hg : getInstance st.store id with
  | none =>
    rw [dockerStatus_none st id w hg, processStatus_none st id portUp hg]
    simp [statusContract]
  | some meta =>
    rw [(dockerStatus_spec st id meta w hg).1,
      (processStatus_spec st id meta portUp hg).1]
    cases hi : w.inspect with
    | missing => cases portUp <;> simp [liveDockerStatus, liveProcessStatus, statusContract]
    | state running => cases running <;> cases portUp <;>
        simp [liveDockerStatus, liveProcessStatus, statusContract]

/-- Witness for C10 at concrete inputs (an unknown id, and a live
instance with a dead backend). -/
theorem claim_C10_witness :
    (dockerStatus ⟨[], [], []⟩ "nope"
      ⟨DockerInspect.missing, none, none, false⟩).1 ∈ statusContract ∧
    (processStatus ⟨[], [], []⟩ "nope" false).1 ≠ "error" :=
  ⟨(claim_C10 ⟨[], [], []⟩ "nope"
      ⟨DockerInspect.missing, none, none, false⟩ false).1,
   (claim_C10 ⟨[], [], []⟩ "nope"
      ⟨DockerInspect.missing, none, none, false⟩ false).2.2.2⟩

/-! ## Non-deploy lifecycle -/

/-- C6: with the id present in the store, `stop` and `remove` succeed
whatever the backend answers (in particular when the backend unit is
already stopped or was deleted out-of-band), `remove` deletes the data
directory (and the config file in it) and the metadata record, and
`start` succeeds when the backend unit is already running (Docker skips
the start call; the process supervisor's start command reporting
success covers the process engine). -/
theorem claim_C6 : ∀ (st : SysState) (id : String) (meta : Meta)
    (dw : DockerWorld) (pw : ProcessWorld),
    getInstance st.store id = some meta →
    (∃ st1, dockerRemove st id dw = (.ok st1, st1) ∧
       getInstance st1.store id = none ∧ id ∉ st1.dirs ∧
       lookupKV st1.files id = none) ∧
    (∃ st1, processRemove st id pw = (.ok st1, st1) ∧
       getInstance st1.store id = none ∧ id ∉ st1.dirs ∧
       lookupKV st1.files id = none) ∧
    (∃ st1, dockerStop st id dw = (.ok st1, st1)) ∧
    (∃ st1, processStop st id pw = (.ok st1, st1)) ∧
    (dw.inspect = DockerInspect.state true →
       ∃ st1, dockerStart st id dw = (.ok st1, st1)) ∧
    (pw.gatewayStartErr = none →
       ∃ st1, processStart st id pw = (.ok st1, st1)) := by
  intro st id meta dw pw hg
  have hstopP : processStop st id pw =
      (Except.ok ⟨saveInstance st.store id { meta with status := "stopped" }, st.files, st.dirs⟩,
       ⟨saveInstance st.store id { meta with status := "stopped" }, st.files, st.dirs⟩) := by
    unfold processStop
    rw [hg]
  refine ⟨?_, ?_, ?_, ?_, ?_, ?_⟩
  · refine ⟨⟨removeInstance st.store id, removeKV st.files id,
      st.dirs.filter (fun d => d ≠ id)⟩, ?_, ?_, ?_, ?_⟩
    · unfold dockerRemove
      rw [hg]
    · exact lookupKV_removeKV_self st.store id
    · simp
    · exact lookupKV_removeKV_self st.files id
  · have hrem : processRemove st id pw =
        (Except.ok ⟨removeInstance (processStop st id pw).2.store id,
          removeKV (processStop st id pw).2.files id,
          (processStop st id pw).2.dirs.filter (fun d => d ≠ id)⟩,
         ⟨removeInstance (processStop st id pw).2.store id,
          removeKV (processStop st id pw).2.files id,
          (processStop st id pw).2.dirs.filter (fun d => d ≠ id)⟩) := by
      unfold processRemove
      rw [hg]
    refine ⟨_, hrem, ?_, ?_, ?_⟩
    · exact lookupKV_removeKV_self _ id
    · simp
    · exact lookupKV_removeKV_self _ id
  · have h3 : dockerStop st id dw =
        (Except.ok ⟨saveInstance st.store id { meta with status := "stopped" }, st.files, st.dirs⟩,
         ⟨saveInstance st.store id { meta with status := "stopped" }, st.files, st.dirs⟩) := by
      unfold dockerStop
      rw [hg]
    exact ⟨_, h3⟩
  · exact ⟨_, hstopP⟩
  · intro hi
    have h5 : dockerStart st id dw =
        (Except.ok ⟨saveInstance st.store id { meta with status := "running" }, st.files, st.dirs⟩,
         ⟨saveInstance st.store id { meta with status := "running" }, st.files, st.dirs⟩) := by
      unfold dockerStart
      rw [hg, hi]
      rfl
    exact ⟨_, h5⟩
  · intro hs
    have h6 : processStart st id pw =
        (Except.ok ⟨saveInstance st.store id { meta with status := "running" }, st.files, st.dirs⟩,
         ⟨saveInstance st.store id { meta with status := "running" }, st.files, st.dirs⟩) := by
      unfold processStart
      rw [hg, hs]
    exact ⟨_, h6⟩

/-- Witness for C6: removing a concrete instance whose container is
gone (inspect throws 404, stop throws 404, remove fails) succeeds and
deletes the record, the directory, and the config file. -/
theorem claim_C6_witness :
    ∃ st1, dockerRemove
      ⟨[("b6", ⟨"b6", "docker", 18791, some "c6", none, "m", "telegram",
        "t", "running"⟩)],
       [("b6", Doc.vobj [])], ["b6"]⟩
      "b6" ⟨DockerInspect.missing, none, some 404, true⟩ = (.ok st1, st1) ∧
      getInstance st1.store "b6" = none ∧ "b6" ∉ st1.dirs ∧
      lookupKV st1.files "b6" = none :=
  (claim_C6
    ⟨[("b6", ⟨"b6", "docker", 18791, some "c6", none, "m", "telegram",
      "t", "running"⟩)],
     [("b6", Doc.vobj [])], ["b6"]⟩
    "b6"
    ⟨"b6", "docker", 18791, some "c6", none, "m", "telegram", "t", "running"⟩
    ⟨DockerInspect.missing, none, some 404, true⟩
    ⟨none, some "stop failed", some "uninstall failed"⟩
    (by rfl)).1

/-! ## Instance-name validation -/

/-- C9 counterexample: the empty id is not "default" and does not match
`[A-Za-z0-9_-]+`, yet `validateInstanceName` accepts it (the `!name`
falsiness guard returns early), and `create("")` proceeds to perform
its effects and succeed instead of failing InvalidArgument. -/
theorem claim_C9_counterexample :
    validateInstanceName "" = none ∧
    "" ≠ "default" ∧
    nameMatches "" = false ∧
    (dockerCreate ⟨[], [], []⟩ ""
      ⟨"k", "claude-opus-4-6", "telegram", "t", "", "", 0⟩ "t0").1 =
      Except.ok 18790 :=
  ⟨rfl, by decide, rfl, by rfl⟩

/-- C9 (amended): `create(id, cfg)` fails with InvalidArgument before
performing any other effect whenever the id is non-empty, not the
literal "default", and either longer than 32 characters or not
matching `[A-Za-z0-9_-]+`; the empty string — being falsy in JS — and
"default" pass validation, as does every id matching the pattern with
length at most 32. -/
theorem claim_C9_amended : ∀ (id : String),
    ((id = "" ∨ id = "default") → validateInstanceName id = none) ∧
    (id ≠ "" → id ≠ "default" → (32 < id.length ∨ nameMatches id = false) →
       (validateInstanceName id).isSome = true) ∧
    (id ≠ "default" → id.length ≤ 32 → nameMatches id = true →
       validateInstanceName id = none) ∧
    (∀ (st : SysState) (cfg : CreateConfig) (now e : String),
       validateInstanceName id = some e →
       dockerCreate st id cfg now = (.error e, st) ∧
       processCreate st id cfg now = (.error e, st)) := by
  intro id
  refine ⟨?_, ?_, ?_, ?_⟩
  · rintro (h | h) <;> simp [validateInstanceName, h]
  · intro h1 h2 h3
    rcases h3 with hlen | hpat
    · simp [validateInstanceName, h1, h2, hlen]
    · by_cases hlen : 32 < id.length
      · simp [validateInstanceName, h1, h2, hlen]
      · simp [validateInstanceName, h1, h2, hlen, hpat]
  · intro h2 hlen hpat
    by_cases h1 : id = ""
    · simp [validateInstanceName, h1]
    · simp [validateInstanceName, h1, h2, Nat.not_lt.mpr hlen, hpat]
  · intro st cfg now e hv
    constructor
    · show createImpl true "docker" st id cfg now = (.error e, st)
      unfold createImpl
      rw [hv]
    · show createImpl false "process" st id cfg now = (.error e, st)
      unfold createImpl
      rw [hv]

/-- Witness for the amended C9: a conforming id passes, an id with a
space fails, and the failing `create` performs no writes. -/
theorem claim_C9_witness :
    validateInstanceName "ok_id" = none ∧
    (validateInstanceName "bad id").isSome = true ∧
    dockerCreate ⟨[], [], []⟩ "bad id"
      ⟨"k", "claude-opus-4-6", "telegram", "t", "", "", 0⟩ "t0" =
      (Except.error
        "Instance name can only contain letters, numbers, hyphens and underscores",
       ⟨[], [], []⟩) :=
  ⟨(claim_C9_amended "ok_id").2.2.1 (by decide) (by decide) (by rfl),
   (claim_C9_amended "bad id").2.1 (by decide) (by decide) (Or.inr (by rfl)),
   ((claim_C9_amended "bad id").2.2.2 ⟨[], [], []⟩
     ⟨"k", "claude-opus-4-6", "telegram", "t", "", "", 0⟩ "t0"
     "Instance name can only contain letters, numbers, hyphens and underscores"
     (by rfl)).1⟩

/-! ## Deploy streams -/

theorem getLast_app_single {α : Type} :
    ∀ (l : List α) (a : α), (l ++ [a]).getLast? = some a
  | [], _ => rfl
  | b :: t, a => by
    have ih := getLast_app_single t a
    cases t with
    | nil => rfl
    | cons c tt =>
      rw [List.cons_append] at ih ⊢
      rw [List.cons_append, List.getLast?_cons_cons]
      exact ih

/-- C1 counterexample: a Docker deploy whose backend never becomes
reachable — the P2 log follower hits its 180 s timeout without seeing
the completion marker and every P4 `checkPort` probe fails — still
resolves successfully: the completion promise fulfils with the port and
the progress sequence ends with `percent = 100`, not `-1`. -/
theorem claim_C1_counterexample :
    gatewayBecameReady (List.replicate 15 false) = false ∧
    (dockerDeployStream
      ⟨[("b1", ⟨"b1", "docker", 18790, none, none, "claude-opus-4-6",
        "telegram", "t0", "stopped"⟩)], [], ["b1"]⟩
      "b1" ⟨"k", "claude-opus-4-6", "telegram", "t", "", "", 0⟩
      ⟨none, [], none, "c1", none, [], P2Outcome.timeout, none,
        List.replicate 15 false, false⟩).result = Except.ok 18790 ∧
    (sseDeployEvents
      (dockerDeployStream
        ⟨[("b1", ⟨"b1", "docker", 18790, none, none, "claude-opus-4-6",
          "telegram", "t0", "stopped"⟩)], [], ["b1"]⟩
        "b1" ⟨"k", "claude-opus-4-6", "telegram", "t", "", "", 0⟩
        ⟨none, [], none, "c1", none, [], P2Outcome.timeout, none,
          List.replicate 15 false, false⟩).result
      (dockerDeployStream
        ⟨[("b1", ⟨"b1", "docker", 18790, none, none, "claude-opus-4-6",
          "telegram", "t0", "stopped"⟩)], [], ["b1"]⟩
        "b1" ⟨"k", "claude-opus-4-6", "telegram", "t", "", "", 0⟩
        ⟨none, [], none, "c1", none, [], P2Outcome.timeout, none,
          List.replicate 15 false, false⟩).events).getLast? =
      some ((100 : Int), "Done") := by
  refine ⟨by decide, by rfl, ?_⟩
  show ((dockerDeployStream
      ⟨[("b1", ⟨"b1", "docker", 18790, none, none, "claude-opus-4-6",
        "telegram", "t0", "stopped"⟩)], [], ["b1"]⟩
      "b1" ⟨"k", "claude-opus-4-6", "telegram", "t", "", "", 0⟩
      ⟨none, [], none, "c1", none, [], P2Outcome.timeout, none,
        List.replicate 15 false, false⟩).events ++
    [((100 : Int), "Done")]).getLast? = some ((100 : Int), "Done")
  exact getLast_app_single _ _

/-- C1 (amended): the code does not fail a deploy whose backend never
becomes reachable.  The Docker engine's P2 log wait gives up after its
180 s timer and proceeds to the later phases ("proceed anyway"), and
after its bounded P4 poll (15 × 2 s) exhausts without the port
answering it still persists `status: "running"` and resolves, ending
the progress sequence with `percent = 100`.  The process engine has no
reachability bound at all in P2: the only failure there is a non-zero
onboard exit, which rejects with a message naming the exit code — not
a time bound — and ends the SSE sequence with `percent = -1`. -/
theorem claim_C1_amended :
    (∀ (st : SysState) (id : String) (meta : Meta) (cfg : CreateConfig)
       (w : DockerDeployWorld),
       getInstance st.store id = some meta →
       w.createErr = none → w.startErr = none →
       w.p2outcome = P2Outcome.timeout →
       gatewayBecameReady w.portChecks = false →
       (dockerDeployStream st id cfg w).result = Except.ok meta.port ∧
       (sseDeployEvents (dockerDeployStream st id cfg w).result
         (dockerDeployStream st id cfg w).events).getLast? =
         some ((100 : Int), "Done") ∧
       getInstance (dockerDeployStream st id cfg w).state.store id =
         some { meta with containerId := some w.containerId, status := "running" }) ∧
    (∀ (st : SysState) (id : String) (meta : Meta) (cfg : CreateConfig)
       (w : ProcessDeployWorld),
       getInstance st.store id = some meta →
       w.spawnErr = none → w.exitCode ≠ 0 →
       (processDeployStream st id cfg w).result =
         Except.error ("Onboarding failed (exit " ++ toString w.exitCode ++ ")") ∧
       (sseDeployEvents (processDeployStream st id cfg w).result
         (processDeployStream st id cfg w).events).getLast? =
         some ((-1 : Int),
           "Onboarding failed (exit " ++ toString w.exitCode ++ ")")) := by
  constructor
  · intro st id meta cfg w hg hc hs hp _hr
    have hres : (dockerDeployStream st id cfg w).result = Except.ok meta.port := by
      unfold dockerDeployStream
      rw [hg, hc, hs, hp]
    refine ⟨hres, ?_, ?_⟩
    · rw [hres]
      show ((dockerDeployStream st id cfg w).events ++
        [((100 : Int), "Done")]).getLast? = some ((100 : Int), "Done")
      exact getLast_app_single _ _
    · show getInstance (dockerDeployStream st id cfg w).state.store id = _
      unfold dockerDeployStream
      rw [hg, hc, hs, hp]
      exact lookupKV_setKV_self _ _ _
  · intro st id meta cfg w hg hs hc
    have hres : (processDeployStream st id cfg w).result =
        Except.error ("Onboarding failed (exit " ++ toString w.exitCode ++ ")") := by
      unfold processDeployStream
      simp only [hg, hs, if_pos hc]
    refine ⟨hres, ?_⟩
    rw [hres]
    show ((processDeployStream st id cfg w).events ++
      [((-1 : Int), "Onboarding failed (exit " ++ toString w.exitCode ++ ")")]).getLast? =
      some ((-1 : Int), "Onboarding failed (exit " ++ toString w.exitCode ++ ")")
    exact getLast_app_single _ _

/-- Witness for the amended C1 at concrete inputs: an unreachable
backend on the Docker engine, and a failing onboard (exit 1) on the
process engine. -/
theorem claim_C1_witness :
    ((dockerDeployStream
      ⟨[("w1", ⟨"w1", "docker", 18793, none, none, "claude-opus-4-6",
        "telegram", "t0", "stopped"⟩)], [], ["w1"]⟩
      "w1" ⟨"k", "claude-opus-4-6", "telegram", "t", "", "", 0⟩
      ⟨none, [], none, "cw1", none, ["installing"], P2Outcome.timeout, none,
        [], false⟩).result = Except.ok 18793) ∧
    ((processDeployStream
      ⟨[("w1p", ⟨"w1p", "process", 18794, none, none, "claude-opus-4-6",
        "telegram", "t0", "stopped"⟩)], [], ["w1p"]⟩
      "w1p" ⟨"k", "claude-opus-4-6", "telegram", "t", "", "", 0⟩
      ⟨none, ["boom"], 1, none⟩).result =
      Except.error "Onboarding failed (exit 1)") :=
  ⟨(claim_C1_amended.1 _ "w1" _ _ _ (by rfl) rfl rfl rfl (by decide)).1,
   (claim_C1_amended.2 _ "w1p" _ _ _ (by rfl) rfl (by decide)).1⟩

/-- C2 counterexample: a Docker deploy in which every P4 readiness
probe fails still flips the container's restart policy to
`unless-stopped` and persists `status: "running"`; the process engine
likewise persists `running` with no readiness re-poll at all. -/
theorem claim_C2_counterexample :
    gatewayBecameReady (List.replicate 15 false) = false ∧
    (dockerDeployStream
      ⟨[("b2", ⟨"b2", "docker", 18792, none, none, "claude-opus-4-6",
        "telegram", "t0", "stopped"⟩)], [], ["b2"]⟩
      "b2" ⟨"k", "claude-opus-4-6", "telegram", "t", "", "", 0⟩
      ⟨none, [], none, "c2", none, [], P2Outcome.streamEnd, none,
        List.replicate 15 false, false⟩).policyFlipped = true ∧
    getInstance
      (dockerDeployStream
        ⟨[("b2", ⟨"b2", "docker", 18792, none, none, "claude-opus-4-6",
          "telegram", "t0", "stopped"⟩)], [], ["b2"]⟩
        "b2" ⟨"k", "claude-opus-4-6", "telegram", "t", "", "", 0⟩
        ⟨none, [], none, "c2", none, [], P2Outcome.streamEnd, none,
          List.replicate 15 false, false⟩).state.store "b2" =
      some ⟨"b2", "docker", 18792, some "c2", none, "claude-opus-4-6",
        "telegram", "t0", "running"⟩ :=
  ⟨by decide, by rfl, by rfl⟩

/-- C2 (amended): on any deploy that reaches P4, the Docker engine
flips the restart policy (exactly when the `update` call itself does
not fail) and persists `status: "running"` regardless of the outcome of
its bounded readiness poll, and the process engine persists
`status: "running"` after a clean onboard exit with no readiness
re-poll at all. -/
theorem claim_C2_amended :
    (∀ (st : SysState) (id : String) (meta : Meta) (cfg : CreateConfig)
       (w : DockerDeployWorld),
       getInstance st.store id = some meta →
       w.createErr = none → w.startErr = none →
       (∀ m, w.p2outcome ≠ P2Outcome.streamErr m) →
       (dockerDeployStream st id cfg w).policyFlipped = !w.updateErr ∧
       getInstance (dockerDeployStream st id cfg w).state.store id =
         some { meta with containerId := some w.containerId, status := "running" }) ∧
    (∀ (st : SysState) (id : String) (meta : Meta) (cfg : CreateConfig)
       (w : ProcessDeployWorld),
       getInstance st.store id = some meta →
       w.spawnErr = none → w.exitCode = 0 →
       getInstance (processDeployStream st id cfg w).state.store id =
         some { meta with status := "running" }) := by
  constructor
  · intro st id meta cfg w hg hc hs hp
    cases ho : w.p2outcome with
    | streamErr m => exact absurd ho (hp m)
    | marker =>
      constructor
      · unfold dockerDeployStream
        rw [hg, hc, hs, ho]
      · show getInstance (dockerDeployStream st id cfg w).state.store id = _
        unfold dockerDeployStream
        rw [hg, hc, hs, ho]
        exact lookupKV_setKV_self _ _ _
    | streamEnd =>
      constructor
      · unfold dockerDeployStream
        rw [hg, hc, hs, ho]
      · show getInstance (dockerDeployStream st id cfg w).state.store id = _
        unfold dockerDeployStream
        rw [hg, hc, hs, ho]
        exact lookupKV_setKV_self _ _ _
    | timeout =>
      constructor
      · unfold dockerDeployStream
        rw [hg, hc, hs, ho]
      · show getInstance (dockerDeployStream st id cfg w).state.store id = _
        unfold dockerDeployStream
        rw [hg, hc, hs, ho]
        exact lookupKV_setKV_self _ _ _
  · intro st id meta cfg w hg hs hc
    show getInstance (processDeployStream st id cfg w).state.store id = _
    have hcond : ¬(w.exitCode ≠ 0) := fun hn => hn hc
    unfold processDeployStream
    simp only [hg, hs, if_neg hcond]
    exact lookupKV_setKV_self _ _ _

/-- Witness for the amended C2 at concrete inputs with every readiness
probe failing. -/
theorem claim_C2_witness :
    ((dockerDeployStream
      ⟨[("w2", ⟨"w2", "docker", 18795, none, none, "claude-opus-4-6",
        "telegram", "t0", "stopped"⟩)], [], ["w2"]⟩
      "w2" ⟨"k", "claude-opus-4-6", "telegram", "t", "", "", 0⟩
      ⟨none, [], none, "cw2", none, [], P2Outcome.timeout, none,
        List.replicate 15 false, false⟩).policyFlipped = !false) ∧
    (getInstance
      (processDeployStream
        ⟨[("w2p", ⟨"w2p", "process", 18796, none, none, "claude-opus-4-6",
          "telegram", "t0", "stopped"⟩)], [], ["w2p"]⟩
        "w2p" ⟨"k", "claude-opus-4-6", "telegram", "t", "", "", 0⟩
        ⟨none, [], 0, none⟩).state.store "w2p" =
      some ⟨"w2p", "process", 18796, none, none, "claude-opus-4-6",
        "telegram", "t0", "running"⟩) :=
  ⟨(claim_C2_amended.1 _ "w2" _ _ _ (by rfl) rfl rfl
      (by intro m h; cases h)).1,
   claim_C2_amended.2 _ "w2p"
     ⟨"w2p", "process", 18796, none, none, "claude-opus-4-6", "telegram",
       "t0", "stopped"⟩ _ _ (by rfl) rfl rfl⟩

/-! ## deepMerge lemmas -/

theorem hasKey_false_not_mem :
    ∀ (l : Fields) (k : String), hasKey l k = false → k ∉ keysKV l
  | [], _, _ => by simp [keysKV]
  | (k2, v) :: rest, k, h => by
    simp only [hasKey, Bool.or_eq_false_iff, decide_eq_false_iff_not] at h
    simp only [keysKV, List.map_cons, List.mem_cons]
    push_neg
    exact ⟨fun hh => h.1 hh.symm,
      by simpa [keysKV] using hasKey_false_not_mem rest k h.2⟩

theorem nodupKeys_cons (k : String) (v : Doc) (rest : Fields)
    (h : nodupKeys ((k, v) :: rest) = true) :
    hasKey rest k = false ∧ nodupKeys rest = true := by
  simp only [nodupKeys, Bool.and_eq_true, Bool.not_eq_true'] at h
  exact h

theorem mem_of_lookupKV {α : Type} :
    ∀ (l : List (String × α)) (k : String) (v : α),
    lookupKV l k = some v → (k, v) ∈ l
  | [], _, _, h => by simp [lookupKV] at h
  | (k2, w) :: rest, k, v, h => by
    by_cases h2 : k2 = k
    · subst h2
      simp only [lookupKV, if_true, eq_self_iff_true, Option.some.injEq] at h
      subst h
      exact List.mem_cons_self _ _
    · simp only [lookupKV, if_neg h2] at h
      exact List.mem_cons_of_mem _ (mem_of_lookupKV rest k v h)

theorem lookupKV_of_mem_nodup :
    ∀ (l : Fields) (k : String) (v : Doc),
    nodupKeys l = true → (k, v) ∈ l → lookupKV l k = some v
  | [], _, _, _, hm => absurd hm (List.not_mem_nil _)
  | (k0, v0) :: rest, k, v, hnd, hm => by
    obtain ⟨h1, h2⟩ := nodupKeys_cons k0 v0 rest hnd
    rcases List.mem_cons.mp hm with heq | hmem
    · obtain ⟨hk, hv⟩ := Prod.mk.injEq .. ▸ heq
      subst hk
      subst hv
      simp [lookupKV]
    · have hk : k ≠ k0 := by
        intro he
        subst he
        exact hasKey_false_not_mem rest k h1
          (List.mem_map_of_mem Prod.fst hmem)
      simp only [lookupKV, if_neg (Ne.symm hk)]
      exact lookupKV_of_mem_nodup rest k v h2 hmem

theorem not_mem_keys_of_lookupKV_none {α : Type} :
    ∀ (l : List (String × α)) (k : String), lookupKV l k = none →
    k ∉ keysKV l
  | [], _, _ => by simp [keysKV]
  | (k2, w) :: rest, k, h => by
    by_cases h2 : k2 = k
    · simp [lookupKV, h2] at h
    · simp only [lookupKV, if_neg h2] at h
      simp only [keysKV, List.map_cons, List.mem_cons]
      push_neg
      exact ⟨fun hh => h2 hh.symm,
        by simpa [keysKV] using not_mem_keys_of_lookupKV_none rest k h⟩

theorem sizeOf_val_lt_of_mem :
    ∀ (l : Fields) (k : String) (v : Doc), (k, v) ∈ l → sizeOf v < sizeOf l
  | [], _, _, hm => absurd hm (List.not_mem_nil _)
  | (k0, v0) :: rest, k, v, hm => by
    rcases List.mem_cons.mp hm with heq | hmem
    · obtain ⟨_, hv⟩ := Prod.mk.injEq .. ▸ heq
      subst hv
      simp only [List.cons.sizeOf_spec, Prod.mk.sizeOf_spec]
      omega
    · have := sizeOf_val_lt_of_mem rest k v hmem
      simp only [List.cons.sizeOf_spec]
      omega

theorem wfDoc_of_mem :
    ∀ (l : Fields) (k : String) (v : Doc),
    wfFields l = true → (k, v) ∈ l → wfDoc v = true
  | [], _, _, _, hm => absurd hm (List.not_mem_nil _)
  | (k0, v0) :: rest, k, v, hwf, hm => by
    simp only [wfFields, Bool.and_eq_true] at hwf
    rcases List.mem_cons.mp hm with heq | hmem
    · obtain ⟨_, hv⟩ := Prod.mk.injEq .. ▸ heq
      subst hv
      exact hwf.1
    · exact wfDoc_of_mem rest k v hwf.2 hmem

theorem wfDoc_vobj (fs : Fields) (h : wfDoc (Doc.vobj fs) = true) :
    nodupKeys fs = true ∧ wfFields fs = true := by
  simp only [wfDoc, Bool.and_eq_true] at h
  exact h

theorem mergeVal_none (v : Doc) : mergeVal none v = v := by
  cases v <;> simp [mergeVal]

theorem mergeVal_obj_obj (tf sf : Fields) :
    mergeVal (some (Doc.vobj tf)) (Doc.vobj sf) =
      Doc.vobj (mergeFields tf sf) := by
  simp [mergeVal]

theorem bothObj_not_obj (tv : Option Doc) (sv : Doc)
    (h : ∀ f, sv ≠ Doc.vobj f) : bothObj tv sv = false := by
  cases tv with
  | none => cases sv <;> rfl
  | some d => cases d <;> cases sv <;> first | rfl | exact absurd rfl (h _)

theorem mergeVal_not_obj (tv : Option Doc) (sv : Doc)
    (h : bothObj tv sv = false) : mergeVal tv sv = sv := by
  cases tv with
  | none => exact mergeVal_none sv
  | some d => cases d <;> cases sv <;> simp_all [mergeVal, bothObj]

theorem lookupKV_mergeGo_not_mem (tf : Fields) :
    ∀ (l acc : Fields) (k : String), k ∉ keysKV l →
    lookupKV (mergeGo tf acc l) k = lookupKV acc k
  | [], acc, k, _ => by simp [mergeGo]
  | (k0, v0) :: rest, acc, k, h => by
    simp only [keysKV, List.map_cons, List.mem_cons] at h
    push_neg at h
    rw [mergeGo]
    rw [lookupKV_mergeGo_not_mem tf rest _ k (by simpa [keysKV] using h.2)]
    exact lookupKV_setKV_ne acc k0 k _ h.1

theorem lookupKV_mergeGo_mem (tf : Fields) :
    ∀ (l acc : Fields) (k : String) (v : Doc),
    nodupKeys l = true → (k, v) ∈ l →
    lookupKV (mergeGo tf acc l) k = some (mergeVal (lookupKV tf k) v)
  | [], _, _, _, _, hm => absurd hm (List.not_mem_nil _)
  | (k0, v0) :: rest, acc, k, v, hnd, hm => by
    obtain ⟨h1, h2⟩ := nodupKeys_cons k0 v0 rest hnd
    rcases List.mem_cons.mp hm with heq | hmem
    · obtain ⟨hk, hv⟩ := Prod.mk.injEq .. ▸ heq
      subst hk
      subst hv
      rw [mergeGo]
      rw [lookupKV_mergeGo_not_mem tf rest _ k
        (hasKey_false_not_mem rest k h1)]
      exact lookupKV_setKV_self acc k _
    · rw [mergeGo]
      exact lookupKV_mergeGo_mem tf rest _ k v h2 hmem

theorem mergeGo_noop (tf : Fields) :
    ∀ (l acc : Fields),
    (∀ k v, (k, v) ∈ l → lookupKV acc k = some (mergeVal (lookupKV tf k) v)) →
    mergeGo tf acc l = acc
  | [], acc, _ => by simp [mergeGo]
  | (k0, v0) :: rest, acc, h => by
    rw [mergeGo]
    rw [setKV_of_lookup_eq acc k0 _ (h k0 v0 (List.mem_cons_self _ _))]
    exact mergeGo_noop tf rest acc
      (fun k v hm => h k v (List.mem_cons_of_mem _ hm))

theorem mergeGo_disjoint (tf : Fields) :
    ∀ (l acc : Fields),
    nodupKeys l = true →
    (∀ k, k ∈ keysKV l → k ∉ keysKV tf) →
    (∀ k, k ∈ keysKV l → k ∉ keysKV acc) →
    mergeGo tf acc l = acc ++ l
  | [], acc, _, _, _ => by simp [mergeGo]
  | (k0, v0) :: rest, acc, hnd, htf, hacc => by
    obtain ⟨h1, h2⟩ := nodupKeys_cons k0 v0 rest hnd
    have hk0 : k0 ∈ keysKV ((k0, v0) :: rest) := by
      simp [keysKV]
    rw [mergeGo]
    rw [lookupKV_eq_none_of_not_mem_keys tf k0 (htf k0 hk0), mergeVal_none]
    rw [setKV_eq_append_of_not_mem_keys acc k0 v0 (hacc k0 hk0)]
    rw [mergeGo_disjoint tf rest (acc ++ [(k0, v0)]) h2
      (fun k hk => htf k (by simp [keysKV] at hk ⊢; exact Or.inr hk))
      (fun k hk => by
        have hk1 : k ≠ k0 := by
          intro he
          subst he
          exact hasKey_false_not_mem rest k h1 hk
        have hk2 : k ∉ keysKV acc := hacc k (by
          simp [keysKV] at hk ⊢
          exact Or.inr hk)
        have hsplit : keysKV (acc ++ [(k0, v0)]) = keysKV acc ++ [k0] := by
          simp [keysKV]
        rw [hsplit]
        simp only [List.mem_append, List.mem_singleton]
        push_neg
        exact ⟨hk2, hk1⟩)]
    simp

theorem merge_self_idem : ∀ (n : Nat),
    (∀ s : Fields, sizeOf s ≤ n → nodupKeys s = true → wfFields s = true →
       mergeFields s s = s) ∧
    (∀ t s : Fields, sizeOf s ≤ n → wfFields t = true →
       nodupKeys s = true → wfFields s = true →
       mergeFields (mergeFields t s) s = mergeFields t s) := by
  intro n
  induction n using Nat.strong_induction_on with
  | _ n ih =>
    constructor
    · intro s hsz hnd hwf
      rw [mergeFields]
      apply mergeGo_noop
      intro k v hm
      rw [lookupKV_of_mem_nodup s k v hnd hm]
      congr 1
      cases v with
      | vobj f =>
        rw [mergeVal_obj_obj]
        have hlt : sizeOf f < n := by
          have h1 := sizeOf_val_lt_of_mem s k _ hm
          have h2 : sizeOf f < sizeOf (Doc.vobj f) := by
            simp [Doc.vobj.sizeOf_spec]
          omega
        obtain ⟨hnf, hwff⟩ := wfDoc_vobj f (wfDoc_of_mem s k _ hwf hm)
        rw [(ih (sizeOf f) hlt).1 f (le_refl _) hnf hwff]
      | vnull =>
        rw [mergeVal_not_obj _ _ (bothObj_not_obj _ _ (fun f h => Doc.noConfusion h))]
      | vbool b =>
        rw [mergeVal_not_obj _ _ (bothObj_not_obj _ _ (fun f h => Doc.noConfusion h))]
      | vnum m =>
        rw [mergeVal_not_obj _ _ (bothObj_not_obj _ _ (fun f h => Doc.noConfusion h))]
      | vstr s2 =>
        rw [mergeVal_not_obj _ _ (bothObj_not_obj _ _ (fun f h => Doc.noConfusion h))]
      | varr xs =>
        rw [mergeVal_not_obj _ _ (bothObj_not_obj _ _ (fun f h => Doc.noConfusion h))]
    · intro t s hsz hwt hnd hwf
      conv_lhs => rw [mergeFields]
      apply mergeGo_noop
      intro k v hm
      have hch : lookupKV (mergeFields t s) k =
          some (mergeVal (lookupKV t k) v) := by
        rw [mergeFields]
        exact lookupKV_mergeGo_mem t s t k v hnd hm
      rw [hch]
      congr 1
      cases v with
      | vobj so =>
        have hlt : sizeOf so < n := by
          have h1 := sizeOf_val_lt_of_mem s k _ hm
          have h2 : sizeOf so < sizeOf (Doc.vobj so) := by
            simp [Doc.vobj.sizeOf_spec]
          omega
        obtain ⟨hnso, hwso⟩ := wfDoc_vobj so (wfDoc_of_mem s k _ hwf hm)
        cases ht : lookupKV t k with
        | none =>
          rw [mergeVal_none, mergeVal_obj_obj]
          rw [(ih (sizeOf so) hlt).1 so (le_refl _) hnso hwso]
        | some d =>
          cases d with
          | vobj tov =>
            rw [mergeVal_obj_obj, mergeVal_obj_obj]
            obtain ⟨_, hwto⟩ := wfDoc_vobj tov
              (wfDoc_of_mem t k _ hwt (mem_of_lookupKV t k _ ht))
            rw [(ih (sizeOf so) hlt).2 tov so (le_refl _) hwto hnso hwso]
          | vnull =>
            rw [mergeVal_not_obj _ _ (by rfl), mergeVal_obj_obj]
            rw [(ih (sizeOf so) hlt).1 so (le_refl _) hnso hwso]
          | vbool b =>
            rw [mergeVal_not_obj _ _ (by rfl), mergeVal_obj_obj]
            rw [(ih (sizeOf so) hlt).1 so (le_refl _) hnso hwso]
          | vnum m =>
            rw [mergeVal_not_obj _ _ (by rfl), mergeVal_obj_obj]
            rw [(ih (sizeOf so) hlt).1 so (le_refl _) hnso hwso]
          | vstr s2 =>
            rw [mergeVal_not_obj _ _ (by rfl), mergeVal_obj_obj]
            rw [(ih (sizeOf so) hlt).1 so (le_refl _) hnso hwso]
          | varr xs =>
            rw [mergeVal_not_obj _ _ (by rfl), mergeVal_obj_obj]
            rw [(ih (sizeOf so) hlt).1 so (le_refl _) hnso hwso]
      | vnull =>
        have hb1 : bothObj (lookupKV t k) Doc.vnull = false :=
          bothObj_not_obj _ _ (fun f h => Doc.noConfusion h)
        rw [mergeVal_not_obj _ _ hb1,
          mergeVal_not_obj _ _ (bothObj_not_obj _ _ (fun f h => Doc.noConfusion h))]
      | vbool b =>
        have hb1 : bothObj (lookupKV t k) (Doc.vbool b) = false :=
          bothObj_not_obj _ _ (fun f h => Doc.noConfusion h)
        rw [mergeVal_not_obj _ _ hb1,
          mergeVal_not_obj _ _ (bothObj_not_obj _ _ (fun f h => Doc.noConfusion h))]
      | vnum m =>
        have hb1 : bothObj (lookupKV t k) (Doc.vnum m) = false :=
          bothObj_not_obj _ _ (fun f h => Doc.noConfusion h)
        rw [mergeVal_not_obj _ _ hb1,
          mergeVal_not_obj _ _ (bothObj_not_obj _ _ (fun f h => Doc.noConfusion h))]
      | vstr s2 =>
        have hb1 : bothObj (lookupKV t k) (Doc.vstr s2) = false :=
          bothObj_not_obj _ _ (fun f h => Doc.noConfusion h)
        rw [mergeVal_not_obj _ _ hb1,
          mergeVal_not_obj _ _ (bothObj_not_obj _ _ (fun f h => Doc.noConfusion h))]
      | varr xs =>
        have hb1 : bothObj (lookupKV t k) (Doc.varr xs) = false :=
          bothObj_not_obj _ _ (fun f h => Doc.noConfusion h)
        rw [mergeVal_not_obj _ _ hb1,
          mergeVal_not_obj _ _ (bothObj_not_obj _ _ (fun f h => Doc.noConfusion h))]

/-- C7: `deepMerge(target, source)` recurses only into keys whose
values are mapping-typed objects in both documents; for every other
key present in source — arrays and scalars included — the source value
replaces the target value wholesale; keys absent from source keep the
target's value. -/
theorem claim_C7 : ∀ (tf sf : Fields) (k : String), nodupKeys sf = true →
    (lookupKV sf k = none →
       lookupKV (deepMerge tf sf) k = lookupKV tf k) ∧
    (∀ (so tov : Fields), lookupKV sf k = some (Doc.vobj so) →
       lookupKV tf k = some (Doc.vobj tov) →
       lookupKV (deepMerge tf sf) k = some (Doc.vobj (deepMerge tov so))) ∧
    (∀ sv, lookupKV sf k = some sv → bothObj (lookupKV tf k) sv = false →
       lookupKV (deepMerge tf sf) k = some sv) := by
  intro tf sf k hnd
  refine ⟨?_, ?_, ?_⟩
  · intro h
    show lookupKV (mergeFields tf sf) k = lookupKV tf k
    rw [mergeFields]
    exact lookupKV_mergeGo_not_mem tf sf tf k
      (not_mem_keys_of_lookupKV_none sf k h)
  · intro so tov hs ht
    show lookupKV (mergeFields tf sf) k = some (Doc.vobj (deepMerge tov so))
    rw [mergeFields]
    rw [lookupKV_mergeGo_mem tf sf tf k _ hnd (mem_of_lookupKV sf k _ hs)]
    rw [ht, mergeVal_obj_obj]
    rfl
  · intro sv hs hb
    show lookupKV (mergeFields tf sf) k = some sv
    rw [mergeFields]
    rw [lookupKV_mergeGo_mem tf sf tf k _ hnd (mem_of_lookupKV sf k _ hs)]
    rw [mergeVal_not_obj _ _ hb]

/-- Witness for C7 at concrete documents: an absent key keeps the
target value, nested objects merge recursively, and an array is
replaced wholesale. -/
theorem claim_C7_witness :
    (lookupKV (deepMerge
        [("a", Doc.vobj [("x", Doc.vnum 1)]), ("b", Doc.varr [Doc.vnum 1]),
         ("d", Doc.vnum 7)]
        [("a", Doc.vobj [("y", Doc.vnum 2)]), ("b", Doc.varr [Doc.vnum 9]),
         ("c", Doc.vnum 3)]) "d" =
      lookupKV [("a", Doc.vobj [("x", Doc.vnum 1)]),
        ("b", Doc.varr [Doc.vnum 1]), ("d", Doc.vnum 7)] "d") ∧
    (lookupKV (deepMerge
        [("a", Doc.vobj [("x", Doc.vnum 1)]), ("b", Doc.varr [Doc.vnum 1]),
         ("d", Doc.vnum 7)]
        [("a", Doc.vobj [("y", Doc.vnum 2)]), ("b", Doc.varr [Doc.vnum 9]),
         ("c", Doc.vnum 3)]) "a" =
      some (Doc.vobj (deepMerge [("x", Doc.vnum 1)] [("y", Doc.vnum 2)]))) ∧
    (lookupKV (deepMerge
        [("a", Doc.vobj [("x", Doc.vnum 1)]), ("b", Doc.varr [Doc.vnum 1]),
         ("d", Doc.vnum 7)]
        [("a", Doc.vobj [("y", Doc.vnum 2)]), ("b", Doc.varr [Doc.vnum 9]),
         ("c", Doc.vnum 3)]) "b" = some (Doc.varr [Doc.vnum 9])) :=
  ⟨(claim_C7 _ _ "d" (by rfl)).1 (by rfl),
   (claim_C7 _ _ "a" (by rfl)).2.1 [("y", Doc.vnum 2)] [("x", Doc.vnum 1)]
     (by rfl) (by rfl),
   (claim_C7 _ _ "b" (by rfl)).2.2 (Doc.varr [Doc.vnum 9]) (by rfl) (by rfl)⟩

/-- C8: merging the same source twice is the same as merging it once
(`deepMerge(deepMerge(A,B),B) = deepMerge(A,B)`), and merging
documents with disjoint key sets yields the union of their key-value
pairs. -/
theorem claim_C8 : ∀ (tf sf : Fields),
    (nodupKeys tf = true → wfFields tf = true → nodupKeys sf = true →
       wfFields sf = true →
       deepMerge (deepMerge tf sf) sf = deepMerge tf sf) ∧
    (nodupKeys sf = true → (∀ k, k ∈ keysKV sf → k ∉ keysKV tf) →
       deepMerge tf sf = tf ++ sf) := by
  intro tf sf
  constructor
  · intro _ hwt hns hws
    exact (merge_self_idem (sizeOf sf)).2 tf sf (le_refl _) hwt hns hws
  · intro hns hdisj
    show mergeFields tf sf = tf ++ sf
    rw [mergeFields]
    exact mergeGo_disjoint tf sf tf hns hdisj hdisj

/-- Witness for C8 at concrete documents: double-merge of a nested
object equals the single merge, and a disjoint merge is the
concatenation. -/
theorem claim_C8_witness :
    deepMerge
      (deepMerge [("a", Doc.vnum 1), ("b", Doc.vobj [("x", Doc.vnum 1)])]
        [("b", Doc.vobj [("z", Doc.vnum 2)]), ("c", Doc.vstr "s")])
      [("b", Doc.vobj [("z", Doc.vnum 2)]), ("c", Doc.vstr "s")] =
      deepMerge [("a", Doc.vnum 1), ("b", Doc.vobj [("x", Doc.vnum 1)])]
        [("b", Doc.vobj [("z", Doc.vnum 2)]), ("c", Doc.vstr "s")] ∧
    deepMerge [("a", Doc.vnum 1)] [("c", Doc.vnum 3)] =
      [("a", Doc.vnum 1)] ++ [("c", Doc.vnum 3)] :=
  ⟨(claim_C8 _ _).1 (by rfl) (by rfl) (by rfl) (by rfl),
   (claim_C8 [("a", Doc.vnum 1)] [("c", Doc.vnum 3)]).2 (by rfl)
     (by
       intro k hk
       have hc : k = "c" := by simpa [keysKV] using hk
       subst hc
       simp [keysKV])⟩

end Nest
